import Mathlib

/-!
Verification of the BambooClaw companion-app core: the process supervisor
(start_daemon, stop_daemon, emergency_flush) and the streaming download
manager (download_binary).

The repository holds two variants of the same design:
* namespace MainA embeds the synchronous variant in src/src-tauri/main.rs;
* namespace MainB embeds the asynchronous variant in src/src-tauri/src/main.rs.

Modelling conventions, stated once here:
* Platform-conditional compilation (cfg target_os = "windows") is reified as
  an explicit Platform parameter with the two cases the sources distinguish.
* A spawned Child process is represented by its pid, a Nat.
* The effect of Command::spawn is passed in as an Except String Nat argument
  (ok pid on success, error message on failure), since the sources only ever
  observe the spawn result through that Result.
* External kill commands (taskkill, pkill) and filesystem resets are recorded
  as Effect values; their effect on a point-in-time process-table snapshot is
  given by the interpreter effectKills / killedBy, using the documented
  matching semantics of those tools (taskkill /IM matches the exact image
  name; pkill -f matches a substring of the full command line).
* u64 counters are modelled as Nat; the downloads the claims quantify over
  stay far below 2^64, where Rust u64 arithmetic and Nat agree.
* The f64 percentage field of the progress payload is display-only and not
  modelled; progress events keep the downloaded and total fields.
-/

deriving instance DecidableEq for Except

/-- The two platform cases the sources distinguish via cfg(target_os). -/
inductive Platform where
  | windows
  | other
deriving DecidableEq

/-- One entry of a point-in-time process-table snapshot:
pid, exact executable image name, full command line. -/
structure ProcessRecord where
  pid : Nat
  name : String
  cmdline : String
deriving DecidableEq

/-- Checks that pat is a leading segment of hay (on character lists). -/
def startsWithList : List Char → List Char → Bool
  | [], _ => true
  | _ :: _, [] => false
  | p :: ps, h :: hs => p == h && startsWithList ps hs

/-- Checks that pat occurs contiguously anywhere inside hay. -/
def containsSub (pat : List Char) : List Char → Bool
  | [] => startsWithList pat []
  | h :: hs => startsWithList pat (h :: hs) || containsSub pat hs

/-- String containment, the matching rule of pkill -f against a command line. -/
def strContains (hay pat : String) : Bool :=
  containsSub pat.toList hay.toList

/-- String starts-with on the underlying character list. -/
def strStarts (hay pat : String) : Bool :=
  startsWithList pat.toList hay.toList

/-- String ends-with on the underlying character list. -/
def strEnds (hay pat : String) : Bool :=
  startsWithList pat.toList.reverse hay.toList.reverse

/-- An externally visible side effect performed by the supervisor:
an external command invocation, a kill/wait on the owned child handle,
or a filesystem reset step. -/
inductive Effect where
  | runCmd (name : String) (args : List String)
  | killChild (pid : Nat)
  | waitChild (pid : Nat)
  | removeDirAll (path : String)
  | createDirAll (path : String)
  | runSh (script : String)
deriving DecidableEq

/-- Whether one action terminates the given process-table record, following
the documented semantics of the external tools the sources invoke:
taskkill /IM img force-kills every process whose image name equals img
(the /T form also used by the sources kills such processes and their trees);
pkill -f pat kills every process whose command line contains pat;
child.kill() kills exactly the owned pid. -/
def effectKills (a : Effect) (r : ProcessRecord) : Bool :=
  match a with
  | Effect.runCmd "taskkill" ["/F", "/IM", img] => r.name == img
  | Effect.runCmd "taskkill" ["/F", "/T", "/IM", img] => r.name == img
  | Effect.runCmd "pkill" ["-f", pat] => strContains r.cmdline pat
  | Effect.runCmd "pkill" ["-9", "-f", pat] => strContains r.cmdline pat
  | Effect.killChild pid => r.pid == pid
  | _ => false

/-- The records of a process-table snapshot terminated by a list of actions. -/
def killedBy (acts : List Effect) (table : List ProcessRecord) :
    List ProcessRecord :=
  table.filter (fun r => acts.any (fun a => effectKills a r))

/-- Outcome of one start_daemon call in the synchronous variant:
the returned Result, the handle slot after the call, and how many times
Command::spawn was invoked during the call (0 or 1). -/
structure StartOutcome where
  result : Except String String
  state : Option Nat
  spawned : Nat
deriving DecidableEq

/-- Outcome of one start_daemon call in the asynchronous variant
(whose Ok payload is the unit value). -/
structure StartOutcomeB where
  result : Except String Unit
  state : Option Nat
  spawned : Nat
deriving DecidableEq

/-- Outcome of stop_daemon / emergency_flush in the synchronous variant:
the side effects issued, the handle slot after the call, and the Result. -/
structure StopOutcome where
  actions : List Effect
  state : Option Nat
  result : Except String String
deriving DecidableEq

namespace MainA

/-- src/src-tauri/main.rs lines 105-135, fn start_daemon.
home is the result of get_home_dir() (propagated early on error with the
guard untouched); st is the DaemonState handle slot under the mutex;
spawnResult is the outcome of cmd.spawn() on the resolved binary path.
If the slot is occupied the call returns Ok early without spawning;
otherwise it spawns once, storing the child only on success. -/
def start_daemon (home : Except String String) (st : Option Nat)
    (spawnResult : Except String Nat) : StartOutcome :=
  match home with
  | Except.error e => ⟨Except.error e, st, 0⟩
  | Except.ok _ =>
    match st with
    | some pid => ⟨Except.ok "Daemon is already running", some pid, 0⟩
    | none =>
      match spawnResult with
      | Except.error e =>
        ⟨Except.error ("Failed to start daemon: " ++ e), none, 1⟩
      | Except.ok pid => ⟨Except.ok "Daemon started", some pid, 1⟩

/-- A sequence of start_daemon calls threading the handle slot, with one
spawn-result oracle per call. Returns the list of per-call Results, the
final slot, and the total number of Command::spawn invocations. -/
def startMany (home : Except String String) :
    Option Nat → List (Except String Nat) →
    List (Except String String) × Option Nat × Nat
  | st, [] => ([], st, 0)
  | st, o :: os =>
    let r := start_daemon home st o
    let rest := startMany home r.state os
    (r.result :: rest.1, rest.2.1, r.spawned + rest.2.2)

/-- The unconditional name-based kill command issued by the synchronous
stop_daemon: taskkill /F /IM bambooclaw.exe on Windows, pkill -f bambooclaw
elsewhere (src/src-tauri/main.rs lines 142-145). -/
def nameKillCmd : Platform → Effect
  | Platform.windows =>
    Effect.runCmd "taskkill" ["/F", "/IM", "bambooclaw.exe"]
  | Platform.other => Effect.runCmd "pkill" ["-f", "bambooclaw"]

/-- Which process-table records the unconditional name-based kill of the
synchronous stop_daemon matches. -/
def matchesNameKill (plat : Platform) (r : ProcessRecord) : Bool :=
  match plat with
  | Platform.windows => r.name == "bambooclaw.exe"
  | Platform.other => strContains r.cmdline "bambooclaw"

/-- src/src-tauri/main.rs lines 138-153, fn stop_daemon.
The name-based kill is issued first, unconditionally; then the owned child,
if any, is killed and waited; every sub-result is discarded with a let
binding to underscore, and the call always returns Ok "Daemon stopped". -/
def stop_daemon (plat : Platform) (st : Option Nat) : StopOutcome :=
  { actions :=
      nameKillCmd plat ::
        (match st with
          | some pid => [Effect.killChild pid, Effect.waitChild pid]
          | none => []),
    state := none,
    result := Except.ok "Daemon stopped" }

/-- The kill list of emergency_flush (src/src-tauri/main.rs lines 173, 188). -/
def processes_to_kill : Platform → List String
  | Platform.windows =>
    ["bambooclaw.exe", "python.exe", "pythonw.exe", "cmd.exe",
     "powershell.exe"]
  | Platform.other => ["bambooclaw", "python", "python3"]

/-- The forced-termination command emergency_flush issues per kill-list name:
taskkill /F /T /IM on Windows, pkill -9 -f elsewhere. -/
def auxKillCmd (plat : Platform) (p : String) : Effect :=
  match plat with
  | Platform.windows => Effect.runCmd "taskkill" ["/F", "/T", "/IM", p]
  | Platform.other => Effect.runCmd "pkill" ["-9", "-f", p]

/-- src/src-tauri/main.rs lines 156-202, fn emergency_flush.
Kills and waits the owned child if present, then issues one forced
termination per kill-list name, then resets scratch storage (on Windows by
removing and recreating the directory, elsewhere by a shell glob removal).
Every sub-step outcome in the source is bound to underscore and discarded,
which is why the env argument (success or failure of each sub-step) is
never consulted, and the call always returns the fixed Ok message. -/
def emergency_flush (plat : Platform) (st : Option Nat)
    (env : Effect → Bool) : StopOutcome :=
  { actions :=
      (match st with
        | some pid => [Effect.killChild pid, Effect.waitChild pid]
        | none => [])
      ++ (processes_to_kill plat).map (auxKillCmd plat)
      ++ (match plat with
        | Platform.windows =>
          [Effect.removeDirAll "C:\\tmp", Effect.createDirAll "C:\\tmp"]
        | Platform.other =>
          [Effect.runSh
            "rm -rf /tmp/bc_* /tmp/*.py /tmp/*.png /tmp/*.csv /tmp/*.xlsx"]),
    state := none,
    result := Except.ok "System flushed successfully" }

/-- Effect of the Windows scratch reset of emergency_flush on the scratch
directory (none when absent, some entries when present): remove_dir_all
followed by create_dir_all leaves it present and empty. -/
def flushScratchWin (d : Option (List String)) : Option (List String) :=
  some []

/-- Whether a /tmp entry name matches one of the shell globs removed by the
non-Windows scratch reset of emergency_flush:
/tmp/bc_* /tmp/*.py /tmp/*.png /tmp/*.csv /tmp/*.xlsx. -/
def tmpGlobMatch (f : String) : Bool :=
  strStarts f "bc_" || strEnds f ".py" || strEnds f ".png" ||
    strEnds f ".csv" || strEnds f ".xlsx"

/-- Effect of the non-Windows scratch reset of emergency_flush on the /tmp
entry list: only the glob-matched entries are removed; the directory is
neither removed nor recreated. -/
def flushScratchUnix (tmp : List String) : List String :=
  tmp.filter (fun f => !tmpGlobMatch f)

end MainA

namespace MainB

/-- src/src-tauri/src/main.rs lines 222-255, fn start_daemon.
If the guarded slot is occupied the call returns Err (already running)
without spawning; otherwise it spawns the detached daemon once, storing the
child only on success. spawned counts Command::spawn invocations. -/
def start_daemon (st : Option Nat) (spawnResult : Except String Nat) :
    StartOutcomeB :=
  match st with
  | some pid =>
    ⟨Except.error "Bambooclaw daemon is already running.", some pid, 0⟩
  | none =>
    match spawnResult with
    | Except.error e =>
      ⟨Except.error ("Failed to spawn bambooclaw daemon: " ++ e), none, 1⟩
    | Except.ok pid => ⟨Except.ok (), some pid, 1⟩

/-- A sequence of asynchronous start_daemon calls threading the slot. -/
def startMany : Option Nat → List (Except String Nat) →
    List (Except String Unit) × Option Nat × Nat
  | st, [] => ([], st, 0)
  | st, o :: os =>
    let r := start_daemon st o
    let rest := startMany r.state os
    (r.result :: rest.1, rest.2.1, r.spawned + rest.2.2)

/-- What the fallback kill of the asynchronous stop_daemon matches in the
process table: taskkill /F /IM bambooclaw.exe on Windows (exact image
name), pkill -f "bambooclaw daemon" elsewhere (command-line substring). -/
def stopMatch (plat : Platform) (r : ProcessRecord) : Bool :=
  match plat with
  | Platform.windows => r.name == "bambooclaw.exe"
  | Platform.other => strContains r.cmdline "bambooclaw daemon"

/-- src/src-tauri/src/main.rs lines 257-303, fn stop_daemon.
With an owned handle: take it and kill it; Err on kill failure, Ok
otherwise (the source writes Ok of unit there, modelled as the empty
message). With no handle: run the platform kill tool; both taskkill and
pkill exit with a non-success status when no process matched, which the
source turns into Err carrying the captured stderr; on success it returns
the Ok message written in the source. killOk is the outcome of
child.kill(); table is the process-table snapshot the kill tool sees;
stderrMsg is the stderr the failing tool produced. -/
def stop_daemon (plat : Platform) (st : Option Nat) (killOk : Bool)
    (table : List ProcessRecord) (stderrMsg : String) :
    Except String String × Option Nat :=
  match st with
  | some _ =>
    if killOk then (Except.ok "", none)
    else (Except.error ("Failed to kill bambooclaw daemon: " ++ stderrMsg),
      none)
  | none =>
    match plat with
    | Platform.windows =>
      if table.any (stopMatch Platform.windows)
      then (Except.ok "bambooclaw.exe processes terminated.", none)
      else (Except.error ("taskkill failed: " ++ stderrMsg), none)
    | Platform.other =>
      if table.any (stopMatch Platform.other)
      then (Except.ok "bambooclaw daemon processes terminated.", none)
      else (Except.error ("pkill failed (maybe no process found?): "
        ++ stderrMsg), none)

end MainB

/-- The progress payload emitted after each chunk write
(src/src-tauri/src/main.rs lines 177-187), keeping the downloaded and total
byte counters; the f64 percentage display field is not modelled. -/
structure ProgressEvent where
  downloaded : Nat
  total : Nat
deriving DecidableEq

/-- The parts of the HTTP response the download code observes: the status
code, the optional declared content length, and the body stream as a list
of chunk results (each either a byte chunk or a transport error). -/
structure HttpResponse where
  status : Nat
  contentLength : Option Nat
  chunks : List (Except String (List Nat))
deriving DecidableEq

/-- Outcome of one download_binary call: the returned Result, the bytes of
the destination file (none when the request itself failed before the file
was created), and the emitted progress events in order. -/
structure DlOutcome where
  result : Except String Unit
  fileBytes : Option (List Nat)
  events : List ProgressEvent
deriving DecidableEq

/-- The 2xx success range, the is_success test of the HTTP client library;
defined here only to state claims about status handling. The download code
itself never inspects the status. -/
def statusIsSuccess (s : Nat) : Bool :=
  200 ≤ s && s < 300

namespace MainB

/-- src/src-tauri/src/main.rs lines 163-188, the body-streaming loop of
download_binary: each chunk is appended to the file, the downloaded counter
is increased by the chunk length, and a progress event is emitted; a stream
error aborts immediately, leaving the bytes written so far in place.
Directory creation, file creation, writes and event emission are modelled
as succeeding; the claims under verification assume no disk error. -/
def downloadLoop (total : Nat) :
    List (Except String (List Nat)) → Nat → List Nat → List ProgressEvent →
    DlOutcome
  | [], _, file, evs => ⟨Except.ok (), some file, evs.reverse⟩
  | Except.error e :: _, _, file, evs =>
    ⟨Except.error ("Error while downloading: " ++ e), some file,
      evs.reverse⟩
  | Except.ok chunk :: rest, downloaded, file, evs =>
    downloadLoop total rest (downloaded + chunk.length) (file ++ chunk)
      (⟨downloaded + chunk.length, total⟩ :: evs)

/-- src/src-tauri/src/main.rs lines 132-191, fn download_binary.
If sending the request fails, the error is returned before the file is
created. Otherwise total_size is the declared content length or 0 when
absent, the destination file is created empty, and the body is streamed by
downloadLoop. The source performs no check of the HTTP status. -/
def download_binary (resp : Except String HttpResponse) : DlOutcome :=
  match resp with
  | Except.error e =>
    ⟨Except.error ("Failed to send request: " ++ e), none, []⟩
  | Except.ok res =>
    downloadLoop (res.contentLength.getD 0) res.chunks 0 [] []

end MainB

/-- The chunk lists of an all-successful body stream. -/
def okChunks (cs : List (List Nat)) : List (Except String (List Nat)) :=
  cs.map Except.ok

/-- The chunks the streaming loop consumes: the leading all-ok segment of
the stream, cut at the first transport error. -/
def leadingOk : List (Except String (List Nat)) → List (List Nat)
  | [] => []
  | Except.ok c :: rest => c :: leadingOk rest
  | Except.error _ :: _ => []

/-- Total byte count of a list of chunks. -/
def sumLens : List (List Nat) → Nat
  | [] => 0
  | c :: cs => c.length + sumLens cs

/-- The running partial sums of chunk lengths starting from acc: the
sequence of downloaded values the loop reports. -/
def runningTotals (acc : Nat) : List (List Nat) → List Nat
  | [] => []
  | c :: cs => (acc + c.length) :: runningTotals (acc + c.length) cs

/-- Whether a Result is the error case. -/
def isErr : Except String String → Bool
  | Except.error _ => true
  | Except.ok _ => false

/-- The supervising application seen as a process-table record: the desktop
companion app of this repository (bambooclaw-core), whose image name and
command line therefore contain the string bambooclaw. -/
def selfRecord : ProcessRecord :=
  ⟨42, "bambooclaw-core", "/usr/local/bin/bambooclaw-core"⟩

/-- A daemon process as a process-table record: the bambooclaw binary run
from the .bambooclaw directory in the user home. -/
def daemonRec : ProcessRecord :=
  ⟨9, "bambooclaw", "/home/user/.bambooclaw/bambooclaw daemon"⟩

/-! ## Helper lemmas -/

/-- Once the handle slot is occupied, every further synchronous start call
returns the already-running message, keeps the slot, and never spawns. -/
theorem startMany_occupied_A (home : String) (pid : Nat)
    (os : List (Except String Nat)) :
    MainA.startMany (Except.ok home) (some pid) os =
      (os.map (fun _ => Except.ok "Daemon is already running"), some pid,
        0) := by
  induction os with
  | nil => rfl
  | cons o os ih =>
    simp [MainA.startMany, MainA.start_daemon, ih]

/-- Once the handle slot is occupied, every further asynchronous start call
returns the already-running error, keeps the slot, and never spawns. -/
theorem startMany_occupied_B (pid : Nat) (os : List (Except String Nat)) :
    MainB.startMany (some pid) os =
      (os.map (fun _ =>
        Except.error "Bambooclaw daemon is already running."), some pid,
        0) := by
  induction os with
  | nil => rfl
  | cons o os ih =>
    simp [MainB.startMany, MainB.start_daemon, ih]

/-! ## Claim C1 -/

/-- Claim C1, counterexample. In the asynchronous variant
(src/src-tauri/src/main.rs lines 230-234), a second start call that finds
the handle present does not spawn, but it returns an error rather than the
successful result the claim requires: starting twice with both spawns able
to succeed yields Ok for the first call and the already-running error, with
no spawn, for the second. -/
theorem c1_counterexample :
    (MainB.start_daemon none (Except.ok 1)).result = Except.ok () ∧
    (MainB.start_daemon (MainB.start_daemon none (Except.ok 1)).state
      (Except.ok 2)).result =
      Except.error "Bambooclaw daemon is already running." ∧
    (MainB.start_daemon (MainB.start_daemon none (Except.ok 1)).state
      (Except.ok 2)).spawned = 0 :=
  ⟨rfl, rfl, rfl⟩

/-- Claim C1, amended. For every sequence of start calls with no intervening
stop, exactly one process is ever spawned: the first call spawns and records
the handle, and every subsequent call performs no spawn; in the synchronous
variant the subsequent calls return the non-error already-running message,
while in the asynchronous variant they return an error whose message states
the daemon is already running. -/
theorem c1_amended (home : String) (pid : Nat)
    (os os2 : List (Except String Nat)) :
    MainA.startMany (Except.ok home) none (Except.ok pid :: os) =
      (Except.ok "Daemon started" ::
        os.map (fun _ => Except.ok "Daemon is already running"), some pid,
        1) ∧
    MainB.startMany none (Except.ok pid :: os2) =
      (Except.ok () ::
        os2.map (fun _ =>
          Except.error "Bambooclaw daemon is already running."), some pid,
        1) := by
  constructor
  · simp [MainA.startMany, MainA.start_daemon, startMany_occupied_A]
  · simp [MainB.startMany, MainB.start_daemon, startMany_occupied_B]

/-! ## Claim C7 -/

/-- Claim C7: in both variants, when spawning the daemon executable fails,
start_daemon returns the spawn error, the handle slot stays empty, and a
subsequent start call attempts to spawn again (it performs one spawn
invocation) rather than reporting already-running. -/
theorem c7_spawn_failure (home e : String) (s2 : Except String Nat) :
    (MainA.start_daemon (Except.ok home) none (Except.error e)).result =
      Except.error ("Failed to start daemon: " ++ e) ∧
    (MainA.start_daemon (Except.ok home) none (Except.error e)).state =
      none ∧
    (MainA.start_daemon (Except.ok home)
      (MainA.start_daemon (Except.ok home) none (Except.error e)).state
      s2).spawned = 1 ∧
    (MainB.start_daemon none (Except.error e)).result =
      Except.error ("Failed to spawn bambooclaw daemon: " ++ e) ∧
    (MainB.start_daemon none (Except.error e)).state = none ∧
    (MainB.start_daemon (MainB.start_daemon none (Except.error e)).state
      s2).spawned = 1 := by
  refine ⟨rfl, rfl, ?_, rfl, rfl, ?_⟩
  · cases s2 <;> rfl
  · cases s2 <;> rfl

/-! ## Claim C8 -/

/-- Claim C8, counterexample. A flush in which every sub-step fails returns
a result identical to that of a flush in which every sub-step succeeds: the
fixed message Ok "System flushed successfully". The returned value therefore
carries no summary of which sub-steps failed, refuting the aggregate
success/partial-failure part of the claim (the source discards every
sub-step outcome). -/
theorem c8_counterexample :
    MainA.emergency_flush Platform.other none (fun _ => false) =
      MainA.emergency_flush Platform.other none (fun _ => true) ∧
    (MainA.emergency_flush Platform.other none (fun _ => false)).result =
      Except.ok "System flushed successfully" :=
  ⟨rfl, rfl⟩

/-- Claim C8, amended. Every invocation of emergency_flush performs all of
its sub-steps regardless of whether earlier sub-steps fail (the issued
side-effect list does not depend on the sub-step outcomes), and the call
never returns an error; however it does not summarize failed sub-steps: it
always returns the one fixed success message. -/
theorem c8_amended (plat : Platform) (st : Option Nat)
    (env : Effect → Bool) :
    (MainA.emergency_flush plat st env).result =
      Except.ok "System flushed successfully" ∧
    MainA.emergency_flush plat st env =
      MainA.emergency_flush plat st (fun _ => true) :=
  ⟨rfl, rfl⟩

/-! ## Claim C9 -/

/-- Claim C9, counterexample. On a non-Windows platform the flush does not
remove and recreate the scratch directory: it only deletes the entries of
/tmp matching five fixed glob patterns. An unmatched entry such as
report.txt survives two successive flushes, so the directory is not empty
after both calls. -/
theorem c9_counterexample :
    MainA.flushScratchUnix (MainA.flushScratchUnix ["report.txt"]) =
      ["report.txt"] ∧
    ["report.txt"] ≠ ([] : List String) := by
  constructor
  · rfl
  · intro h
    cases h

/-- Claim C9, amended. The scratch reset of emergency_flush is idempotent on
both platforms, and on Windows it matches the claim: the scratch directory
is removed and recreated, so it is present and empty after each call and
after any two successive calls. On other platforms only the entries of /tmp
matching the five fixed glob patterns are deleted; the directory is not
recreated and unmatched entries remain, a second flush changing nothing. -/
theorem c9_amended (d : Option (List String)) (tmp : List String) :
    MainA.flushScratchWin (MainA.flushScratchWin d) =
      MainA.flushScratchWin d ∧
    MainA.flushScratchWin d = some [] ∧
    MainA.flushScratchUnix (MainA.flushScratchUnix tmp) =
      MainA.flushScratchUnix tmp := by
  refine ⟨rfl, rfl, ?_⟩
  simp [MainA.flushScratchUnix, List.filter_filter]

/-- The name-based kill of the synchronous stop_daemon terminates exactly
the records its platform matching rule selects. -/
theorem effectKills_nameKill (plat : Platform) (r : ProcessRecord) :
    effectKills (MainA.nameKillCmd plat) r = MainA.matchesNameKill plat r :=
  by cases plat <;> rfl

/-! ## Claim C2 -/

/-- Claim C2 concerns a code bug: emergency_flush has no self-exclusion
rule. On a non-Windows platform, the kill list contains bambooclaw and each
entry is applied with pkill -9 -f, which matches any process whose command
line contains the name; the supervising application of this repository,
whose image is bambooclaw-core, matches, and the flush terminates it. This
theorem evaluates the embedded code at that failing input: the supervisor
record itself is among the processes the flush kills. -/
theorem c2_flush_kills_self :
    selfRecord ∈ killedBy
      (MainA.emergency_flush Platform.other (some 7)
        (fun _ => true)).actions [selfRecord] := by
  decide

/-! ## Claim C4 -/

/-- Claim C4, counterexample. In the asynchronous variant, stop_daemon with
no owned handle and an empty process table returns an error: the fallback
pkill matches nothing, exits with a non-success status, and the source turns
that into Err, not a non-error not-running result. -/
theorem c4_counterexample :
    MainB.stop_daemon Platform.other none true [] "" =
      (Except.error "pkill failed (maybe no process found?): ", none) :=
  rfl

/-- Claim C4, amended. When the supervisor holds no owned handle and no
process matching the daemon exists in the table, the asynchronous variant
returns an error (the kill tool exits unsuccessfully having matched
nothing), while the synchronous variant returns the non-error message
Daemon stopped, which does not distinguish the not-running case. Neither
variant returns a non-error not-running result. -/
theorem c4_amended (plat : Platform) (table : List ProcessRecord)
    (killOk : Bool) (msg : String)
    (h : table.any (MainB.stopMatch plat) = false) :
    isErr (MainB.stop_daemon plat none killOk table msg).1 = true ∧
    (MainA.stop_daemon plat none).result = Except.ok "Daemon stopped" := by
  cases plat <;>
    simp [MainB.stop_daemon, MainA.stop_daemon, isErr, h]

/-- Witness for the amended Claim C4 at the empty process table. -/
theorem c4_amended_witness :
    isErr (MainB.stop_daemon Platform.other none true [] "").1 = true ∧
    (MainA.stop_daemon Platform.other none).result =
      Except.ok "Daemon stopped" :=
  c4_amended Platform.other [] true "" (by decide)

/-! ## Claim C10 -/

/-- Claim C10: the synchronous stop_daemon issues the OS-wide name-based
kill unconditionally and first, before and regardless of whether an owned
handle exists, so every process-table record matching the daemon name (on
Windows) or having bambooclaw in its command line (elsewhere) is terminated
by the call, not only the supervisor-owned process. -/
theorem c10_unconditional_name_kill (plat : Platform) (st : Option Nat)
    (table : List ProcessRecord) :
    (MainA.stop_daemon plat st).actions.head? =
      some (MainA.nameKillCmd plat) ∧
    ∀ r ∈ table, MainA.matchesNameKill plat r = true →
      r ∈ killedBy (MainA.stop_daemon plat st).actions table := by
  constructor
  · rfl
  · intro r hr hm
    apply List.mem_filter.mpr
    refine ⟨hr, ?_⟩
    apply List.any_eq_true.mpr
    refine ⟨MainA.nameKillCmd plat, ?_, ?_⟩
    · simp [MainA.stop_daemon]
    · rwa [effectKills_nameKill]

/-- Witness for Claim C10: on a non-Windows platform with an owned handle
present, a daemon process found in the table is terminated by stop_daemon
even though it is not the owned process. -/
theorem c10_unconditional_name_kill_witness :
    daemonRec ∈ killedBy
      (MainA.stop_daemon Platform.other (some 5)).actions [daemonRec] :=
  (c10_unconditional_name_kill Platform.other (some 5) [daemonRec]).2
    daemonRec (by decide) (by decide)

/-! ## Download lemmas -/

/-- Every element of the running totals from acc is bounded by acc plus the
total byte count of the chunks. -/
theorem runningTotals_le (cs : List (List Nat)) :
    ∀ (acc : Nat) (x : Nat), x ∈ runningTotals acc cs →
      x ≤ acc + sumLens cs := by
  induction cs with
  | nil =>
    intro acc x hx
    simp [runningTotals] at hx
  | cons c cs ih =>
    intro acc x hx
    rw [runningTotals] at hx
    rcases List.mem_cons.mp hx with h | h
    · subst h
      simp only [sumLens]
      omega
    · have := ih (acc + c.length) x h
      simp only [sumLens] at this ⊢
      omega

/-- The first running total, when it exists, is at least acc. -/
theorem runningTotals_head_ge (acc : Nat) (cs : List (List Nat)) :
    ∀ y ∈ (runningTotals acc cs).head?, acc ≤ y := by
  cases cs with
  | nil => simp [runningTotals]
  | cons c cs =>
    simp [runningTotals]

/-- The running totals are non-decreasing. -/
theorem runningTotals_chain (cs : List (List Nat)) :
    ∀ acc : Nat,
      List.Chain' (fun a b => a ≤ b) (runningTotals acc cs) := by
  induction cs with
  | nil =>
    intro acc
    simp [runningTotals]
  | cons c cs ih =>
    intro acc
    rw [runningTotals, List.chain'_cons']
    refine ⟨fun y hy => ?_, ih (acc + c.length)⟩
    exact runningTotals_head_ge (acc + c.length) cs y hy

/-- The last running total is acc plus the total byte count. -/
theorem runningTotals_getLast (cs : List (List Nat)) :
    ∀ acc : Nat, cs ≠ [] →
      (runningTotals acc cs).getLast? = some (acc + sumLens cs) := by
  induction cs with
  | nil =>
    intro acc h
    cases h rfl
  | cons c cs ih =>
    intro acc h
    cases cs with
    | nil => simp [runningTotals, sumLens]
    | cons c2 cs2 =>
      rw [runningTotals, runningTotals, List.getLast?_cons_cons,
        ← runningTotals]
      rw [ih (acc + c.length) (by simp)]
      simp [sumLens]
      omega

/-- The total byte count of the chunk lists equals the flattened length. -/
theorem sumLens_flatten (cs : List (List Nat)) :
    cs.flatten.length = sumLens cs := by
  induction cs with
  | nil => rfl
  | cons c cs ih => simp [sumLens, ih]

/-- Unfolding of the streaming loop on an all-successful stream: it returns
Ok, the file holds the previous bytes followed by all chunks, and the
emitted events are the running totals paired with the declared total. -/
theorem downloadLoop_okChunks (total : Nat) (cs : List (List Nat)) :
    ∀ (acc : Nat) (file : List Nat) (evs : List ProgressEvent),
    MainB.downloadLoop total (okChunks cs) acc file evs =
      ⟨Except.ok (), some (file ++ cs.flatten),
        evs.reverse ++ (runningTotals acc cs).map
          (fun d => ⟨d, total⟩)⟩ := by
  induction cs with
  | nil =>
    intro acc file evs
    simp [okChunks, MainB.downloadLoop, runningTotals]
  | cons c cs ih =>
    intro acc file evs
    rw [okChunks, List.map_cons, MainB.downloadLoop, ← okChunks, ih]
    simp [runningTotals]

/-- The events any stream produces are those of its leading all-ok segment:
the previously accumulated events followed by the running totals of the
chunks consumed before the first transport error. -/
theorem downloadLoop_events (total : Nat)
    (cs : List (Except String (List Nat))) :
    ∀ (acc : Nat) (file : List Nat) (evs : List ProgressEvent),
    (MainB.downloadLoop total cs acc file evs).events =
      evs.reverse ++ (runningTotals acc (leadingOk cs)).map
        (fun d => ⟨d, total⟩) := by
  induction cs with
  | nil =>
    intro acc file evs
    simp [MainB.downloadLoop, leadingOk, runningTotals]
  | cons c cs ih =>
    intro acc file evs
    cases c with
    | error e =>
      simp [MainB.downloadLoop, leadingOk, runningTotals]
    | ok ch =>
      rw [MainB.downloadLoop, ih, leadingOk, runningTotals]
      simp

/-! ## Claim C3 -/

/-- Claim C3, counterexample. A response with the non-success status 404
whose body is the three bytes 72 105 33 is downloaded without error: the
fetch returns Ok and the body bytes are written to the destination file,
because the source never inspects the HTTP status. -/
theorem c3_counterexample :
    statusIsSuccess 404 = false ∧
    (MainB.download_binary (Except.ok
      ⟨404, some 3, [Except.ok [72, 105, 33]]⟩)).result = Except.ok () ∧
    (MainB.download_binary (Except.ok
      ⟨404, some 3, [Except.ok [72, 105, 33]]⟩)).fileBytes =
      some [72, 105, 33] := by
  refine ⟨rfl, ?_, ?_⟩ <;> rfl

/-- Claim C3, amended. The fetch performs no HTTP status check at all: its
entire outcome (result, destination bytes, progress events) is independent
of the response status, and the response body is streamed to the
destination file whatever the status is; errors arise only from failing to
send the request or from stream transport errors. -/
theorem c3_amended (r : HttpResponse) (s : Nat) :
    MainB.download_binary (Except.ok
      { status := s, contentLength := r.contentLength,
        chunks := r.chunks }) =
      MainB.download_binary (Except.ok r) := by
  cases r
  rfl

/-! ## Claim C5 -/

/-- Claim C5: for a download with declared total N whose body arrives as
successful chunks summing to N, the fetch succeeds, the emitted downloaded
values are exactly the partial sums of the chunk sizes, hence
non-decreasing, the last emitted value equals N (when at least one chunk
arrives), and the destination file holds exactly N bytes. -/
theorem c5_download_progress (st N : Nat) (cs : List (List Nat))
    (h : sumLens cs = N) :
    (MainB.download_binary (Except.ok ⟨st, some N, okChunks cs⟩)).result =
      Except.ok () ∧
    (MainB.download_binary (Except.ok
      ⟨st, some N, okChunks cs⟩)).events.map ProgressEvent.downloaded =
      runningTotals 0 cs ∧
    List.Chain' (fun a b => a ≤ b)
      ((MainB.download_binary (Except.ok
        ⟨st, some N, okChunks cs⟩)).events.map ProgressEvent.downloaded) ∧
    ((MainB.download_binary (Except.ok
      ⟨st, some N, okChunks cs⟩)).events.map
        ProgressEvent.downloaded).getLast? =
      (if cs.isEmpty then none else some N) ∧
    ((MainB.download_binary (Except.ok
      ⟨st, some N, okChunks cs⟩)).fileBytes.getD []).length = N := by
  have key : MainB.download_binary (Except.ok ⟨st, some N, okChunks cs⟩) =
      ⟨Except.ok (), some cs.flatten,
        (runningTotals 0 cs).map (fun d => ⟨d, N⟩)⟩ := by
    show MainB.downloadLoop N (okChunks cs) 0 [] [] = _
    rw [downloadLoop_okChunks]
    simp
  have hmap : ∀ l : List Nat, List.map ProgressEvent.downloaded
      (l.map (fun d => (⟨d, N⟩ : ProgressEvent))) = l := by
    intro l
    rw [List.map_map]
    exact List.map_id l
  rw [key]
  have heq : ((⟨Except.ok (), some cs.flatten,
      (runningTotals 0 cs).map (fun d => (⟨d, N⟩ : ProgressEvent))⟩ :
      DlOutcome)).events.map ProgressEvent.downloaded =
      runningTotals 0 cs := hmap _
  rw [heq]
  refine ⟨rfl, rfl, runningTotals_chain cs 0, ?_, ?_⟩
  · cases cs with
    | nil => rfl
    | cons c cs2 =>
      rw [runningTotals_getLast (c :: cs2) 0 (by simp)]
      simp only [Nat.zero_add, List.isEmpty_cons, Bool.false_eq_true,
        if_false]
      rw [h]
  · show cs.flatten.length = N
    rw [sumLens_flatten]
    exact h

/-- Witness for Claim C5 at the chunk split [1, 2], [9] of a three-byte
download. -/
theorem c5_download_progress_witness :
    (MainB.download_binary (Except.ok
      ⟨200, some 3, okChunks [[1, 2], [9]]⟩)).result = Except.ok () ∧
    (MainB.download_binary (Except.ok
      ⟨200, some 3, okChunks [[1, 2], [9]]⟩)).events.map
        ProgressEvent.downloaded = runningTotals 0 [[1, 2], [9]] ∧
    List.Chain' (fun a b => a ≤ b)
      ((MainB.download_binary (Except.ok
        ⟨200, some 3, okChunks [[1, 2], [9]]⟩)).events.map
          ProgressEvent.downloaded) ∧
    ((MainB.download_binary (Except.ok
      ⟨200, some 3, okChunks [[1, 2], [9]]⟩)).events.map
        ProgressEvent.downloaded).getLast? =
      (if ([[1, 2], [9]] : List (List Nat)).isEmpty then none
        else some 3) ∧
    ((MainB.download_binary (Except.ok
      ⟨200, some 3, okChunks [[1, 2], [9]]⟩)).fileBytes.getD []).length =
      3 :=
  c5_download_progress 200 3 [[1, 2], [9]] (by decide)

/-! ## Claim C6 -/

/-- Claim C6, counterexample. The downloaded counter is not clamped to the
declared total: a response declaring one byte of content whose stream
delivers a two-byte chunk produces a progress event with downloaded equal
to 2, exceeding the known total 1. -/
theorem c6_counterexample :
    (MainB.download_binary (Except.ok
      ⟨200, some 1, [Except.ok [7, 8]]⟩)).events =
      [⟨2, 1⟩] ∧ ¬(2 ≤ 1) := by
  refine ⟨rfl, by omega⟩

/-- Claim C6, amended. Across every download with a declared content length
N the downloaded counter is monotonically non-decreasing across progress
events; it never exceeds N provided the bytes delivered by the stream
before its first error total at most N (as they do when the other end
honours its declared length). The code itself never clamps the counter, so
a stream delivering more than N bytes exceeds the total. -/
theorem c6_amended (resp : HttpResponse) (N : Nat)
    (hN : resp.contentLength = some N)
    (hle : sumLens (leadingOk resp.chunks) ≤ N) :
    List.Chain' (fun a b => a ≤ b)
      ((MainB.download_binary (Except.ok resp)).events.map
        ProgressEvent.downloaded) ∧
    ∀ ev ∈ (MainB.download_binary (Except.ok resp)).events,
      ev.downloaded ≤ N ∧ ev.total = N := by
  obtain ⟨s, cl, ch⟩ := resp
  simp only at hN hle
  subst hN
  rw [MainB.download_binary]
  simp only [Option.getD_some]
  constructor
  · rw [downloadLoop_events]
    simp only [List.reverse_nil, List.nil_append, List.map_map]
    have hmap : (ProgressEvent.downloaded ∘
        fun d => (⟨d, N⟩ : ProgressEvent)) = id := rfl
    rw [hmap, List.map_id]
    exact runningTotals_chain (leadingOk ch) 0
  · intro ev hev
    rw [downloadLoop_events] at hev
    simp only [List.reverse_nil, List.nil_append, List.mem_map] at hev
    obtain ⟨d, hd, rfl⟩ := hev
    refine ⟨?_, rfl⟩
    show d ≤ N
    have h2 := runningTotals_le (leadingOk ch) 0 d hd
    omega

/-- Witness for the amended Claim C6 at a two-chunk three-byte download. -/
theorem c6_amended_witness :
    List.Chain' (fun a b => a ≤ b)
      ((MainB.download_binary (Except.ok
        ⟨200, some 3, [Except.ok [1, 2], Except.ok [9]]⟩)).events.map
          ProgressEvent.downloaded) ∧
    (⟨3, 3⟩ : ProgressEvent).downloaded ≤ 3 ∧
      (⟨3, 3⟩ : ProgressEvent).total = 3 :=
  ⟨(c6_amended ⟨200, some 3, [Except.ok [1, 2], Except.ok [9]]⟩ 3 rfl
      (by decide)).1,
   (c6_amended ⟨200, some 3, [Except.ok [1, 2], Except.ok [9]]⟩ 3 rfl
      (by decide)).2 ⟨3, 3⟩ (by decide)⟩
